import Mathlib

/-!
Verification of the web3storage client (src/web3storage/web3storage.py)
against its natural-language specification.

The Python module is embedded shallowly: filesystem reads, printed
messages, subprocess invocations and HTTP requests become explicit data
(an `FS` record read by the code, and a trace of `Action`s produced by
it), while raised Python exceptions become the `raised` constructor of
`PyResult`.  Every definition follows the corresponding source function
line by line.  String primitives (split, strip, startswith, pathlib
name/stem/suffixes/parent) are implemented by structural recursion on
the character list so that all of them evaluate by `decide`.
-/

namespace Web3Storage

/-- A single-quote character, used to spell Python error messages. -/
def sq : String := String.singleton (Char.ofNat 39)

/-- The dot character. -/
def dotChar : Char := Char.ofNat 46

/-- The slash character. -/
def slashChar : Char := Char.ofNat 47

/-- The colon character. -/
def colonChar : Char := Char.ofNat 58

/-- Whitespace characters removed by Python str.strip. -/
def isSpaceChar (c : Char) : Bool :=
  c == Char.ofNat 32 || c == Char.ofNat 9 || c == Char.ofNat 10 ||
  c == Char.ofNat 13

/-- Does the first character list occur at the head of the second? -/
def charsLeadMatch : List Char → List Char → Bool
  | [], _ => true
  | _ :: _, [] => false
  | a :: as, b :: bs => a == b && charsLeadMatch as bs

/-- Split a character list at every occurrence of a separator character
(the semantics of Python str.split with a one-character separator). -/
def splitChar (c : Char) : List Char → List (List Char)
  | [] => [[]]
  | x :: xs =>
    let r := splitChar c xs
    if x == c then [] :: r
    else
      match r with
      | [] => [[x]]
      | h :: t => (x :: h) :: t

/-- str.split with a one-character separator, on strings. -/
def strSplit (s : String) (c : Char) : List String :=
  (splitChar c s.data).map String.mk

/-- sep.join(parts) with a one-character separator. -/
def strJoinWith (c : Char) (l : List String) : String :=
  String.intercalate (String.singleton c) l

/-- str.startswith. -/
def strStartsWith (s pre : String) : Bool :=
  charsLeadMatch pre.data s.data

/-- str.endswith. -/
def strEndsWith (s post : String) : Bool :=
  charsLeadMatch post.data.reverse s.data.reverse

/-- Drop the first n characters of a string. -/
def strDrop (s : String) (n : Nat) : String :=
  String.mk (s.data.drop n)

/-- Drop the last n characters of a string. -/
def strDropRight (s : String) (n : Nat) : String :=
  String.mk (s.data.take (s.data.length - n))

/-- Python str.strip(): remove whitespace from both ends. -/
def strStrip (s : String) : String :=
  String.mk (((s.data.dropWhile isSpaceChar).reverse.dropWhile isSpaceChar).reverse)

/-- Lower-case every character of a string. -/
def strLower (s : String) : String :=
  String.mk (s.data.map Char.toLower)

/-- Python substring containment: needle occurs in hay (the in operator
on two strings; the empty needle is always contained). -/
def isSubstring (needle hay : String) : Bool :=
  (List.range (hay.data.length + 1)).any
    (fun i => charsLeadMatch needle.data (hay.data.drop i))

/-- Python os.path.expanduser for the leading-tilde forms used here:
a path that is exactly a tilde, or starts with a tilde and a slash, has
the tilde replaced by the home directory; any other path is unchanged. -/
def expanduser (home p : String) : String :=
  if p = "~" then home
  else if strStartsWith p ("~/") then home ++ strDrop p 1
  else p

/-- pathlib Path.name on the string form: the final path component,
with empty components (trailing or doubled slashes) ignored. -/
def pathName (p : String) : String :=
  ((strSplit p slashChar).filter (fun c => c ≠ "")).getLastD ""

/-- pathlib suffix of a file NAME: the part from the last dot on, empty
when the dot is the first character, absent, or the last character
(CPython computes this with rfind). -/
def pySuffix (name : String) : String :=
  let parts := strSplit name dotChar
  if parts.length ≤ 1 then ""
  else
    let base := strJoinWith dotChar parts.dropLast
    let last := parts.getLastD ""
    if base == "" || last == "" then "" else "." ++ last

/-- pathlib stem of a file NAME: the name with its suffix removed. -/
def pyStem (name : String) : String :=
  strDropRight name (pySuffix name).data.length

/-- pathlib Path.suffixes of a file NAME: no suffixes when the name ends
in a dot; otherwise leading dots are stripped and each dot-separated part
after the first is a suffix. -/
def pySuffixes (name : String) : List String :=
  if strEndsWith name (".") then []
  else
    let n := String.mk (name.data.dropWhile (fun c => c == dotChar))
    ((strSplit n dotChar).drop 1).map (fun s => "." ++ s)

/-- pathlib Path.parent on the string form. -/
def parentOf (p : String) : String :=
  let comps := (strSplit p slashChar).filter (fun c => c ≠ "")
  let isAbs := strStartsWith p ("/")
  if comps.length ≤ 1 then (if isAbs then "/" else ".")
  else (if isAbs then "/" else "") ++ strJoinWith slashChar comps.dropLast

/-- The parts of the host environment the module reads: the home
directory used by expanduser, which paths exist, and the lines of each
readable file. -/
structure FS where
  home : String
  pathExists : String → Bool
  fileLines : String → List String

/-- The Python exception values the embedded code can raise. -/
inductive PyErr
  | fileNotFoundError (msg : String)
  | exception (msg : String)
  | typeError (msg : String)
  | attributeError (msg : String)
deriving DecidableEq

/-- Outcome of a Python call: a returned value or a raised exception. -/
inductive PyResult (α : Type)
  | raised (e : PyErr)
  | returned (v : α)
deriving DecidableEq

/-- HTTP method of a request issued via the requests library. -/
inductive Method
  | get
  | post
  | head
deriving DecidableEq

/-- A prepared HTTP request: method, full URL, and its headers. -/
structure Request where
  method : Method
  url : String
  headers : List (String × String)
deriving DecidableEq

/-- Observable actions of the module: console prints, directory
creation, subprocess invocations and HTTP requests, in program order. -/
inductive Action
  | printMsg (s : String)
  | mkdir (p : String)
  | subprocessRun (cmd : String)
  | httpRequest (r : Request)
deriving DecidableEq

/-- Python dict assignment d[k] = v on an association list, keeping a
single binding per key. -/
def dictInsert (d : List (String × String)) (k v : String) :
    List (String × String) :=
  (d.filter (fun p => p.1 ≠ k)) ++ [(k, v)]

/-- Lookup in a requests header mapping; requests compares header names
case-insensitively. -/
def headerLookup (hs : List (String × String)) (name : String) :
    Option String :=
  (hs.find? (fun p => strLower p.1 == strLower name)).map (fun p => p.2)

/-- BearerAuth.__call__ : sets headers["authorization"] to the string
"Bearer " followed by the token, returning the updated header map. -/
def bearerAuthApply (token : String) (hs : List (String × String)) :
    List (String × String) :=
  dictInsert hs ("authorization") ("Bearer " ++ token)

/-- Python truthiness of an optional string: None and "" are falsy. -/
def falsyOpt : Option String → Bool
  | none => true
  | some s => s == ""

/-- The HTTP requests recorded in an action trace. -/
def httpActions (l : List Action) : List Request :=
  l.filterMap (fun a => match a with
    | Action.httpRequest r => some r
    | _ => none)

/-- The subprocess commands recorded in an action trace. -/
def subprocessActions (l : List Action) : List String :=
  l.filterMap (fun a => match a with
    | Action.subprocessRun s => some s
    | _ => none)

/-- create_car's acceptable extensions for the output file. -/
def acceptable_extensions : List String := [".car"]

/-- The message of the invalid-extension exception, as Python formats
the list acceptable_extensions. -/
def extensionMsg : String :=
  "Extension must be in [" ++ sq ++ ".car" ++ sq ++ "]"

/-- Embedding of create_car: expand and check the source directory,
choose the output file (defaulting to stem + .car, otherwise validating
the extension, with an append-if-absent branch that the validation makes
unreachable), refuse an existing output, create the parent directory if
missing, and invoke the ipfs-car subprocess.  The returned value is the
output file path handed to the packager. -/
def create_car (fs : FS) (source_dir0 : String) (output_file0 : Option String) :
    List Action × PyResult String :=
  let source_dir := expanduser fs.home source_dir0
  if fs.pathExists source_dir = false then
    ([], PyResult.raised (PyErr.fileNotFoundError (source_dir ++ " does not exist")))
  else
    let chosen : PyResult String :=
      if falsyOpt output_file0 then
        PyResult.returned (pyStem (pathName source_dir) ++ ".car")
      else
        let o1 := expanduser fs.home (output_file0.getD "")
        let extension := String.join (pySuffixes (pathName o1))
        if (acceptable_extensions.contains extension) = false then
          PyResult.raised (PyErr.exception extensionMsg)
        else if extension = "" then
          PyResult.returned (expanduser fs.home (o1 ++ ".car"))
        else
          PyResult.returned o1
    match chosen with
    | PyResult.raised e => ([], PyResult.raised e)
    | PyResult.returned output_file =>
      if fs.pathExists output_file then
        ([], PyResult.raised (PyErr.exception
          (output_file ++ " already exists. Please chance the name")))
      else
        let cmd := "ipfs-car --pack " ++ source_dir ++ " --output " ++ output_file
        if fs.pathExists (parentOf output_file) then
          ([Action.subprocessRun cmd], PyResult.returned output_file)
        else
          ([Action.mkdir (parentOf output_file), Action.subprocessRun cmd],
           PyResult.returned output_file)

/-- Client._read_config, on the lines of the file: a line containing a
colon is stripped and split at the first colon; the key is kept when the
source's membership test accepts it.  NOTE: the source tests
key in ("ACCESS_TOKEN"), and in Python the parenthesised operand is just
the string, so the test is substring containment in "ACCESS_TOKEN", not
membership in a one-element tuple. -/
def read_config (lines : List String) : List (String × String) :=
  lines.foldl
    (fun config line =>
      if (strSplit line colonChar).length ≥ 2 then
        let stripped := strStrip line
        let parts := strSplit stripped colonChar
        let key := parts.headD ""
        let value := strJoinWith colonChar (parts.drop 1)
        if isSubstring key ("ACCESS_TOKEN") then
          dictInsert config key (strStrip value)
        else config
      else config)
    []

/-- Client._read_from_config: the environment value of ACCESS_TOKEN,
when set, is used as the configuration file path, defaulting to the
expanded ~/.web3_storage_token; when a file exists there its
ACCESS_TOKEN entry is returned, otherwise a warning is printed and no
token is produced. -/
def read_from_config (fs : FS) (envAccessToken : Option String) :
    List Action × Option String :=
  let dotrc := envAccessToken.getD (expanduser fs.home ("~/.web3_storage_token"))
  if fs.pathExists dotrc then
    ([], List.lookup ("ACCESS_TOKEN") (read_config (fs.fileLines dotrc)))
  else
    ([Action.printMsg (" ** No token was found, check your ~/.web3_storage_token file ** ")],
     none)

/-- The state a constructed Client holds: its endpoint and the resolved
token (which the source allows to be None). -/
structure ClientState where
  endpoint : String
  token : Option String
deriving DecidableEq

/-- Client.__init__ : an explicitly supplied token wins; otherwise the
token is whatever _read_from_config yields. -/
def clientInit (fs : FS) (envAccessToken : Option String)
    (endpoint : String) (token : Option String) :
    List Action × ClientState :=
  match token with
  | some t => ([], ⟨endpoint, some t⟩)
  | none =>
    let r := read_from_config fs envAccessToken
    (r.1, ⟨endpoint, r.2⟩)

/-- The default endpoint of Client.__init__. -/
def defaultEndpoint : String := "https://api.web3.storage"

/-- The reminder printed when a required path argument is None. -/
def needPathMsg : String := "You need to supply a path"

/-- The reminder printed when a required cid argument is None. -/
def needCidMsg : String := "You need to supply a cid"

/-- The message printed when a supplied source path does not exist. -/
def notExistMsg (p : String) : String :=
  p ++ " does not exist. Please check you entered the correct path"

/-- Message of the TypeError raised by os.path.expanduser(None). -/
def expanduserNoneMsg : String :=
  "expected str, bytes or os.PathLike object, not NoneType"

/-- Message of the AttributeError raised by None.encode. -/
def encodeNoneMsg : String :=
  sq ++ "NoneType" ++ sq ++ " object has no attribute " ++ sq ++ "encode" ++ sq

/-- Message of the TypeError raised by "Bearer " + None in BearerAuth. -/
def concatNoneMsg : String :=
  "can only concatenate str (not \"NoneType\") to str"

/-- Client.user_uploads: one GET request to {endpoint}/user/uploads/
with bearer authentication (a None token makes BearerAuth raise while
the request is being prepared, before anything is sent). -/
def user_uploads (c : ClientState) : List Action × PyResult Request :=
  match c.token with
  | none => ([], PyResult.raised (PyErr.typeError concatNoneMsg))
  | some t =>
    let req : Request :=
      ⟨Method.get, c.endpoint ++ "/user/uploads/", bearerAuthApply t []⟩
    ([Action.httpRequest req], PyResult.returned req)

/-- Client.upload: a None path is reported by a print and then crashes
in expanduser; a missing file is reported by a print and nothing is
sent; otherwise the X-NAME header is built from filename.encode (an
AttributeError when filename is None) and one POST to {endpoint}/upload
is issued with bearer authentication. -/
def upload (c : ClientState) (fs : FS)
    (file_path : Option String) (filename : Option String) :
    List Action × PyResult (Option Request) :=
  match file_path with
  | none =>
    ([Action.printMsg needPathMsg],
     PyResult.raised (PyErr.typeError expanduserNoneMsg))
  | some fp =>
    if fs.pathExists (expanduser fs.home fp) = false then
      ([Action.printMsg (notExistMsg fp)], PyResult.returned none)
    else
      match filename with
      | none => ([], PyResult.raised (PyErr.attributeError encodeNoneMsg))
      | some fn =>
        match c.token with
        | none => ([], PyResult.raised (PyErr.typeError concatNoneMsg))
        | some t =>
          let req : Request :=
            ⟨Method.post, c.endpoint ++ "/upload",
             bearerAuthApply t [("X-NAME", fn)]⟩
          ([Action.httpRequest req], PyResult.returned (some req))

/-- Client.upload_car: like upload but the archive is first produced by
create_car (whose actions and exceptions propagate), and the single POST
goes to {endpoint}/car. -/
def upload_car (c : ClientState) (fs : FS)
    (source_path : Option String) (output_path : Option String)
    (filename : Option String) :
    List Action × PyResult (Option Request) :=
  match source_path with
  | none =>
    ([Action.printMsg needPathMsg],
     PyResult.raised (PyErr.typeError expanduserNoneMsg))
  | some sp =>
    if fs.pathExists (expanduser fs.home sp) = false then
      ([Action.printMsg (notExistMsg sp)], PyResult.returned none)
    else
      let car := create_car fs sp output_path
      match car.2 with
      | PyResult.raised e => (car.1, PyResult.raised e)
      | PyResult.returned _ =>
        match filename with
        | none => (car.1, PyResult.raised (PyErr.attributeError encodeNoneMsg))
        | some fn =>
          match c.token with
          | none => (car.1, PyResult.raised (PyErr.typeError concatNoneMsg))
          | some t =>
            let req : Request :=
              ⟨Method.post, c.endpoint ++ "/car",
               bearerAuthApply t [("X-NAME", fn)]⟩
            (car.1 ++ [Action.httpRequest req], PyResult.returned (some req))

/-- Client.retrieve: a None cid is reported by a print and the method
returns None; otherwise one GET request to {endpoint}/car/{cid}. -/
def retrieve (c : ClientState) (cid : Option String) :
    List Action × PyResult (Option Request) :=
  match cid with
  | none => ([Action.printMsg needCidMsg], PyResult.returned none)
  | some s =>
    match c.token with
    | none => ([], PyResult.raised (PyErr.typeError concatNoneMsg))
    | some t =>
      let req : Request :=
        ⟨Method.get, c.endpoint ++ "/car/" ++ s, bearerAuthApply t []⟩
      ([Action.httpRequest req], PyResult.returned (some req))

/-- Client.metadata: a None cid is reported by a print and the method
returns None; otherwise one GET request to {endpoint}/status/{cid}. -/
def metadata (c : ClientState) (cid : Option String) :
    List Action × PyResult (Option Request) :=
  match cid with
  | none => ([Action.printMsg needCidMsg], PyResult.returned none)
  | some s =>
    match c.token with
    | none => ([], PyResult.raised (PyErr.typeError concatNoneMsg))
    | some t =>
      let req : Request :=
        ⟨Method.get, c.endpoint ++ "/status/" ++ s, bearerAuthApply t []⟩
      ([Action.httpRequest req], PyResult.returned (some req))

/-- Client.http_header: a None cid is reported by a print and the method
returns None; otherwise one HEAD request to {endpoint}/car/{cid}. -/
def http_header (c : ClientState) (cid : Option String) :
    List Action × PyResult (Option Request) :=
  match cid with
  | none => ([Action.printMsg needCidMsg], PyResult.returned none)
  | some s =>
    match c.token with
    | none => ([], PyResult.raised (PyErr.typeError concatNoneMsg))
    | some t =>
      let req : Request :=
        ⟨Method.head, c.endpoint ++ "/car/" ++ s, bearerAuthApply t []⟩
      ([Action.httpRequest req], PyResult.returned (some req))

/-- A concrete environment for witnesses: a source directory, a plain
file, the current directory, an existing archive, an existing text file
and the default configuration file all exist. -/
def wFS : FS :=
  { home := "/h"
  , pathExists := fun p =>
      (["srcdir", "f.txt", ".", "arch.car", "exists.txt",
        "/h/.web3_storage_token"]).contains p
  , fileLines := fun p =>
      if p = "/h/.web3_storage_token" then [("ACCESS_TOKEN: filetok")] else [] }

/-- A concrete environment in which nothing exists. -/
def wFSempty : FS :=
  { home := "/h", pathExists := fun _ => false, fileLines := fun _ => [] }

/-- A second concrete environment that agrees with wFS on the default
configuration file but on nothing else. -/
def wFS2 : FS :=
  { home := "/other"
  , pathExists := fun p => p == "/h/.web3_storage_token"
  , fileLines := fun p =>
      if p = "/h/.web3_storage_token" then [("ACCESS_TOKEN: filetok")] else [] }

/-- A concrete client with the default endpoint and a resolved token. -/
def wClient : ClientState := ⟨defaultEndpoint, some ("tok")⟩

/-- With an existing source and a falsy output argument, create_car
derives the output name from the source stem; only the overwrite check
and the parent-directory check remain before the subprocess runs. -/
theorem create_car_default (fs : FS) (src : String) (o : Option String)
    (hs : fs.pathExists (expanduser fs.home src) = true)
    (ho : falsyOpt o = true) :
    create_car fs src o =
      (let out := pyStem (pathName (expanduser fs.home src)) ++ ".car"
       let cmd := "ipfs-car --pack " ++ expanduser fs.home src ++ " --output " ++ out
       if fs.pathExists out then
         ([], PyResult.raised (PyErr.exception
           (out ++ " already exists. Please chance the name")))
       else if fs.pathExists (parentOf out) then
         ([Action.subprocessRun cmd], PyResult.returned out)
       else
         ([Action.mkdir (parentOf out), Action.subprocessRun cmd],
          PyResult.returned out)) := by
  simp [create_car, hs, ho]

/-- The bearer header added to an empty header map. -/
theorem bearerAuthApply_nil (t : String) :
    bearerAuthApply t [] = [("authorization", "Bearer " ++ t)] := rfl

/-- The bearer header added to the X-NAME header map. -/
theorem bearerAuthApply_xname (t fn : String) :
    bearerAuthApply t [("X-NAME", fn)] =
      [("X-NAME", fn), ("authorization", "Bearer " ++ t)] := rfl

end Web3Storage

namespace Web3Storage

/-- Claim C1: with a required argument absent the operations do not fail
with a structured validation error before using the null value: retrieve,
metadata and http_header print a reminder and return None without
raising, while upload and upload_car print a reminder and then crash
with the TypeError coming from expanduser(None); no HTTP request or
subprocess is issued either way. -/
theorem C1_missing_argument_behaviour :
    retrieve wClient none =
      ([Action.printMsg needCidMsg], PyResult.returned none) ∧
    metadata wClient none =
      ([Action.printMsg needCidMsg], PyResult.returned none) ∧
    http_header wClient none =
      ([Action.printMsg needCidMsg], PyResult.returned none) ∧
    upload wClient wFS none (some ("n")) =
      ([Action.printMsg needPathMsg],
       PyResult.raised (PyErr.typeError expanduserNoneMsg)) ∧
    upload_car wClient wFS none none (some ("n")) =
      ([Action.printMsg needPathMsg],
       PyResult.raised (PyErr.typeError expanduserNoneMsg)) := by
  decide

/-- Claim C2: on the success path each of the six operations issues
exactly one HTTP request, with the method and path of the table in the
specification, relative to the configured endpoint, and the request's
headers carry the bearer credential (the source sets the lowercase
header name, which requests matches case-insensitively, as the two
headerLookup conjuncts record). -/
theorem C2_requests_and_auth (c : ClientState) (fs : FS)
    (t fp fn sp cid : String)
    (ht : c.token = some t)
    (hfp : fs.pathExists (expanduser fs.home fp) = true)
    (hsp : fs.pathExists (expanduser fs.home sp) = true)
    (hout : fs.pathExists (pyStem (pathName (expanduser fs.home sp)) ++ ".car") = false) :
    httpActions (user_uploads c).1 =
      [⟨Method.get, c.endpoint ++ "/user/uploads/",
        [("authorization", "Bearer " ++ t)]⟩] ∧
    httpActions (upload c fs (some fp) (some fn)).1 =
      [⟨Method.post, c.endpoint ++ "/upload",
        [("X-NAME", fn), ("authorization", "Bearer " ++ t)]⟩] ∧
    httpActions (upload_car c fs (some sp) none (some fn)).1 =
      [⟨Method.post, c.endpoint ++ "/car",
        [("X-NAME", fn), ("authorization", "Bearer " ++ t)]⟩] ∧
    httpActions (retrieve c (some cid)).1 =
      [⟨Method.get, c.endpoint ++ "/car/" ++ cid,
        [("authorization", "Bearer " ++ t)]⟩] ∧
    httpActions (metadata c (some cid)).1 =
      [⟨Method.get, c.endpoint ++ "/status/" ++ cid,
        [("authorization", "Bearer " ++ t)]⟩] ∧
    httpActions (http_header c (some cid)).1 =
      [⟨Method.head, c.endpoint ++ "/car/" ++ cid,
        [("authorization", "Bearer " ++ t)]⟩] ∧
    headerLookup [("X-NAME", fn), ("authorization", "Bearer " ++ t)]
        ("Authorization") = some ("Bearer " ++ t) ∧
    headerLookup [("authorization", "Bearer " ++ t)] ("Authorization") =
      some ("Bearer " ++ t) := by
  refine ⟨?_, ?_, ?_, ?_, ?_, ?_, ?_, ?_⟩
  · simp [user_uploads, ht, httpActions, bearerAuthApply_nil]
  · simp [upload, ht, hfp, httpActions, bearerAuthApply_xname]
  · have hcar := create_car_default fs sp none hsp rfl
    by_cases hp :
        fs.pathExists (parentOf (pyStem (pathName (expanduser fs.home sp)) ++ ".car")) = true
    · simp [upload_car, ht, hsp, hcar, hout, hp, httpActions, bearerAuthApply_xname]
    · simp [upload_car, ht, hsp, hcar, hout, hp, httpActions, bearerAuthApply_xname]
  · simp [retrieve, ht, httpActions, bearerAuthApply_nil]
  · simp [metadata, ht, httpActions, bearerAuthApply_nil]
  · simp [http_header, ht, httpActions, bearerAuthApply_nil]
  · rfl
  · rfl

/-- Witness for C2 at a concrete client and filesystem; the conjunction
restates the discharged hypotheses and instantiates the theorem. -/
theorem C2_requests_and_auth_witness :
    wClient.token = some ("tok") ∧
    wFS.pathExists (expanduser wFS.home ("f.txt")) = true ∧
    wFS.pathExists (expanduser wFS.home ("srcdir")) = true ∧
    wFS.pathExists (pyStem (pathName (expanduser wFS.home ("srcdir"))) ++ ".car") = false ∧
    (httpActions (user_uploads wClient).1 =
      [⟨Method.get, wClient.endpoint ++ "/user/uploads/",
        [("authorization", "Bearer " ++ "tok")]⟩] ∧
     httpActions (upload wClient wFS (some ("f.txt")) (some ("name1"))).1 =
      [⟨Method.post, wClient.endpoint ++ "/upload",
        [("X-NAME", "name1"), ("authorization", "Bearer " ++ "tok")]⟩] ∧
     httpActions (upload_car wClient wFS (some ("srcdir")) none (some ("name1"))).1 =
      [⟨Method.post, wClient.endpoint ++ "/car",
        [("X-NAME", "name1"), ("authorization", "Bearer " ++ "tok")]⟩] ∧
     httpActions (retrieve wClient (some ("cid1"))).1 =
      [⟨Method.get, wClient.endpoint ++ "/car/" ++ "cid1",
        [("authorization", "Bearer " ++ "tok")]⟩] ∧
     httpActions (metadata wClient (some ("cid1"))).1 =
      [⟨Method.get, wClient.endpoint ++ "/status/" ++ "cid1",
        [("authorization", "Bearer " ++ "tok")]⟩] ∧
     httpActions (http_header wClient (some ("cid1"))).1 =
      [⟨Method.head, wClient.endpoint ++ "/car/" ++ "cid1",
        [("authorization", "Bearer " ++ "tok")]⟩] ∧
     headerLookup [("X-NAME", "name1"), ("authorization", "Bearer " ++ "tok")]
        ("Authorization") = some ("Bearer " ++ "tok") ∧
     headerLookup [("authorization", "Bearer " ++ "tok")] ("Authorization") =
        some ("Bearer " ++ "tok")) :=
  ⟨rfl, by decide, by decide, by decide,
   C2_requests_and_auth wClient wFS ("tok") ("f.txt") ("name1") ("srcdir") ("cid1")
     rfl (by decide) (by decide) (by decide)⟩

/-- Claim C3 (code bug): for an output path with no extension create_car
does not append .car and proceed; the membership test rejects the empty
extension first and raises the invalid-extension exception before any
subprocess (the append-if-absent branch of the source is unreachable). -/
theorem C3_extensionless_output :
    create_car wFS ("srcdir") (some ("archive")) =
      ([], PyResult.raised (PyErr.exception extensionMsg)) := by decide

/-- Claim C4 (code bug): the configuration reader accepts KEY: value
lines, but because the source's membership test is substring containment
in the string ACCESS_TOKEN, a line with key TOKEN also contributes a
binding to the mapping; a key that is not a substring contributes
nothing. -/
theorem C4_key_recognition :
    read_config [("ACCESS_TOKEN: t")] = [(("ACCESS_TOKEN"), ("t"))] ∧
    read_config [("TOKEN: abc")] = [(("TOKEN"), ("abc"))] ∧
    read_config [("TOKEN: abc")] ≠ [] ∧
    read_config [("XYZ: q")] = [] := by decide

/-- Claim C5 counterexample: exists.txt names an existing file, yet
create_car fails on it with the invalid-extension exception, not with
the output-conflict exception. -/
theorem C5_counterexample :
    wFS.pathExists ("exists.txt") = true ∧
    create_car wFS ("srcdir") (some ("exists.txt")) =
      ([], PyResult.raised (PyErr.exception extensionMsg)) ∧
    create_car wFS ("srcdir") (some ("exists.txt")) ≠
      ([], PyResult.raised (PyErr.exception
        ("exists.txt already exists. Please chance the name"))) := by decide

/-- Claim C5 (amended): for an output path that passes extension
validation (its joined suffixes are exactly .car) and names an existing
file, create_car fails with the output-conflict exception and performs
no action at all — in particular the subprocess is never invoked. -/
theorem C5_amended_output_conflict (fs : FS) (src out : String)
    (hs : fs.pathExists (expanduser fs.home src) = true)
    (hne : falsyOpt (some out) = false)
    (hext : String.join (pySuffixes (pathName (expanduser fs.home out))) = ".car")
    (hex : fs.pathExists (expanduser fs.home out) = true) :
    create_car fs src (some out) =
      ([], PyResult.raised (PyErr.exception
        (expanduser fs.home out ++ " already exists. Please chance the name"))) := by
  simp [create_car, hs, hne, hext, hex, acceptable_extensions]

/-- Witness for the amended C5 at the existing archive arch.car. -/
theorem C5_amended_output_conflict_witness :
    wFS.pathExists (expanduser wFS.home ("srcdir")) = true ∧
    falsyOpt (some ("arch.car")) = false ∧
    String.join (pySuffixes (pathName (expanduser wFS.home ("arch.car")))) = ".car" ∧
    wFS.pathExists (expanduser wFS.home ("arch.car")) = true ∧
    create_car wFS ("srcdir") (some ("arch.car")) =
      ([], PyResult.raised (PyErr.exception
        (expanduser wFS.home ("arch.car") ++ " already exists. Please chance the name"))) :=
  ⟨by decide, by decide, by decide, by decide,
   C5_amended_output_conflict wFS ("srcdir") ("arch.car")
     (by decide) (by decide) (by decide) (by decide)⟩

/-- Claim C6: for a non-existent source path create_car raises
FileNotFoundError, and upload and upload_car print the not-found message
and abort; in all three cases the trace holds no HTTP request, no
subprocess invocation and no directory creation. -/
theorem C6_missing_source (fs : FS) (c : ClientState) (p : String)
    (out filename : Option String)
    (h : fs.pathExists (expanduser fs.home p) = false) :
    create_car fs p out =
      ([], PyResult.raised (PyErr.fileNotFoundError
        (expanduser fs.home p ++ " does not exist"))) ∧
    upload c fs (some p) filename =
      ([Action.printMsg (notExistMsg p)], PyResult.returned none) ∧
    upload_car c fs (some p) out filename =
      ([Action.printMsg (notExistMsg p)], PyResult.returned none) := by
  refine ⟨?_, ?_, ?_⟩ <;> simp [create_car, upload, upload_car, h]

/-- Witness for C6 at a path that exists nowhere in the environment. -/
theorem C6_missing_source_witness :
    wFS.pathExists (expanduser wFS.home ("ghost")) = false ∧
    (create_car wFS ("ghost") none =
      ([], PyResult.raised (PyErr.fileNotFoundError
        (expanduser wFS.home ("ghost") ++ " does not exist"))) ∧
     upload wClient wFS (some ("ghost")) (some ("n")) =
      ([Action.printMsg (notExistMsg ("ghost"))], PyResult.returned none) ∧
     upload_car wClient wFS (some ("ghost")) none (some ("n")) =
      ([Action.printMsg (notExistMsg ("ghost"))], PyResult.returned none)) :=
  ⟨by decide,
   C6_missing_source wFS wClient ("ghost") none (some ("n")) (by decide)⟩

/-- Claim C7 (code bug): with no explicit token, no environment value
and no configuration file, the resolver prints a warning and yields no
token — it raises nothing — and construction stores token = None. -/
theorem C7_no_credential :
    read_from_config wFSempty none =
      ([Action.printMsg
         (" ** No token was found, check your ~/.web3_storage_token file ** ")],
       none) ∧
    (clientInit wFSempty none defaultEndpoint none).2.token = none := by decide

/-- Claim C8 counterexample: with the environment variable set to
tok123, the resolver does not yield tok123 as the token; it treats the
value as a configuration file path, finds no such file, and yields no
token — although the default configuration file exists and holds one. -/
theorem C8_counterexample :
    wFS.pathExists (expanduser wFS.home ("~/.web3_storage_token")) = true ∧
    (read_from_config wFS none).2 = some ("filetok") ∧
    (read_from_config wFS (some ("tok123"))).2 = none ∧
    (read_from_config wFS (some ("tok123"))).2 ≠ some ("tok123") := by decide

/-- Claim C8 (amended): when the environment variable is set, its value
is used as the path of the configuration file: resolution yields the
ACCESS_TOKEN entry of the file at that path when it exists and no token
otherwise, and it depends only on the filesystem at that path — the
default ~/.web3_storage_token location is not consulted. -/
theorem C8_env_value_is_config_path (fs gs : FS) (p : String)
    (hagree : fs.pathExists p = gs.pathExists p)
    (hlines : fs.fileLines p = gs.fileLines p) :
    (read_from_config fs (some p)).2 =
      (if fs.pathExists p then
         List.lookup ("ACCESS_TOKEN") (read_config (fs.fileLines p))
       else none) ∧
    (read_from_config fs (some p)).2 = (read_from_config gs (some p)).2 := by
  constructor
  · by_cases h : fs.pathExists p = true
    · simp [read_from_config, h]
    · simp [read_from_config, h]
  · simp [read_from_config, hagree, hlines]

/-- Witness for the amended C8: two environments agreeing only on the
config file path give the same resolution, matching the file lookup. -/
theorem C8_env_value_is_config_path_witness :
    wFS.pathExists ("/h/.web3_storage_token") =
      wFS2.pathExists ("/h/.web3_storage_token") ∧
    wFS.fileLines ("/h/.web3_storage_token") =
      wFS2.fileLines ("/h/.web3_storage_token") ∧
    ((read_from_config wFS (some ("/h/.web3_storage_token"))).2 =
      (if wFS.pathExists ("/h/.web3_storage_token") then
         List.lookup ("ACCESS_TOKEN")
           (read_config (wFS.fileLines ("/h/.web3_storage_token")))
       else none) ∧
     (read_from_config wFS (some ("/h/.web3_storage_token"))).2 =
       (read_from_config wFS2 (some ("/h/.web3_storage_token"))).2) :=
  ⟨by decide, by decide,
   C8_env_value_is_config_path wFS wFS2 ("/h/.web3_storage_token")
     (by decide) (by decide)⟩

/-- Claim C9 (code bug): for an existing file, calling upload with the
filename argument omitted raises AttributeError from None.encode before
any HTTP request — the name header is not optional in the code — and
upload_car does the same after the packaging step has already run. -/
theorem C9_filename_not_optional :
    upload wClient wFS (some ("f.txt")) none =
      ([], PyResult.raised (PyErr.attributeError encodeNoneMsg)) ∧
    httpActions (upload wClient wFS (some ("f.txt")) none).1 = [] ∧
    upload_car wClient wFS (some ("srcdir")) none none =
      ([Action.subprocessRun ("ipfs-car --pack srcdir --output srcdir.car")],
       PyResult.raised (PyErr.attributeError encodeNoneMsg)) := by decide

/-- Claim C10: with an existing source and no (or empty) output
argument, create_car derives the output file as the source stem followed
by .car, resolved in the current working directory; the default path is
still subject to the overwrite check, while extension validation is
skipped entirely — the result is one of the three listed outcomes and
never the invalid-extension exception. -/
theorem C10_default_output (fs : FS) (src : String) (o : Option String)
    (hs : fs.pathExists (expanduser fs.home src) = true)
    (ho : falsyOpt o = true) :
    create_car fs src o =
      (let out := pyStem (pathName (expanduser fs.home src)) ++ ".car"
       let cmd := "ipfs-car --pack " ++ expanduser fs.home src ++ " --output " ++ out
       if fs.pathExists out then
         ([], PyResult.raised (PyErr.exception
           (out ++ " already exists. Please chance the name")))
       else if fs.pathExists (parentOf out) then
         ([Action.subprocessRun cmd], PyResult.returned out)
       else
         ([Action.mkdir (parentOf out), Action.subprocessRun cmd],
          PyResult.returned out)) := by
  simp [create_car, hs, ho]

/-- Witness for C10: the default output of packing srcdir is srcdir.car
in the current directory, and the subprocess receives exactly it. -/
theorem C10_default_output_witness :
    wFS.pathExists (expanduser wFS.home ("srcdir")) = true ∧
    falsyOpt none = true ∧
    create_car wFS ("srcdir") none =
      (let out := pyStem (pathName (expanduser wFS.home ("srcdir"))) ++ ".car"
       let cmd := "ipfs-car --pack " ++ expanduser wFS.home ("srcdir") ++ " --output " ++ out
       if wFS.pathExists out then
         ([], PyResult.raised (PyErr.exception
           (out ++ " already exists. Please chance the name")))
       else if wFS.pathExists (parentOf out) then
         ([Action.subprocessRun cmd], PyResult.returned out)
       else
         ([Action.mkdir (parentOf out), Action.subprocessRun cmd],
          PyResult.returned out)) :=
  ⟨by decide, by decide,
   C10_default_output wFS ("srcdir") none (by decide) (by decide)⟩

end Web3Storage
